import Mathlib

/-!
Verification of the AD-HTC process-analysis calculation core (`app.py`).

The four calculation components are shallowly embedded over `ℝ`:
each assignment of the source is a Lean definition with the same name
(prefixed by its component), floating-point arithmetic is idealised as
real arithmetic, `math.log` is `Real.log`, `**` is `Real.rpow`, and
Python's `round(x, d)` is `rnd d x` below (round-to-nearest at `d`
decimal places; ties differ from binary-float behaviour only at exact
decimal ties, which no statement here touches).
-/

noncomputable section

/-! ## Thermodynamic constants (app.py lines 40-47) -/

def CP_AIR : ℝ := 1.005
def GAMMA_AIR : ℝ := 1.4
def R_AIR : ℝ := 0.287
def CP_STEAM : ℝ := 2.01
def HFG_WATER : ℝ := 2257.0
def CP_WATER : ℝ := 4.186
def BIOGAS_LHV : ℝ := 22.0
def HYDROCHAR_HHV : ℝ := 25.0

/-- Python `round(x, d)`: round to `d` decimal places. -/
def rnd (d : ℕ) (x : ℝ) : ℝ := (round (x * 10 ^ d) : ℝ) / 10 ^ d

/-! ## Result records -/

/-- The `states` dict returned by both cycle solvers. -/
structure CycleStates where
  T : List ℝ
  h : List ℝ
  s : List ℝ
  labels : List String

/-- The `metrics` dict returned by `brayton_cycle`. -/
structure BraytonMetrics where
  w_comp : ℝ
  w_turb : ℝ
  w_net : ℝ
  q_in : ℝ
  q_out : ℝ
  eta_th : ℝ
  bwr : ℝ

/-- The `metrics` dict returned by `htc_steam_cycle`. -/
structure SteamMetrics where
  w_pump : ℝ
  w_turb : ℝ
  w_net : ℝ
  q_in : ℝ
  eta : ℝ

/-- The dict returned by `ad_biogas_yield`. -/
structure ADYield where
  dry_mass : ℝ
  volatile_solids : ℝ
  biogas_m3_h : ℝ
  methane_m3_h : ℝ
  biogas_energy_MJ_h : ℝ

/-- The dict returned by `htc_process`. -/
structure HTCProcess where
  dry_mass : ℝ
  hydrochar_kg_h : ℝ
  process_water_kg_h : ℝ
  hydrochar_energy_MJ_h : ℝ
  energy_required_MJ_h : ℝ

/-! ## Brayton (gas turbine) cycle — `brayton_cycle`, app.py lines 54-119.
Each definition mirrors one assignment of the source, taking exactly the
inputs it depends on, in the order `T1_C rp T3_C eta_c eta_t`. -/

def brayton_T1 (T1_C : ℝ) : ℝ := T1_C + 273.15

def brayton_T3 (T3_C : ℝ) : ℝ := T3_C + 273.15

def brayton_T2s (T1_C rp : ℝ) : ℝ :=
  brayton_T1 T1_C * rp ^ ((GAMMA_AIR - 1) / GAMMA_AIR)

def brayton_T2 (T1_C rp eta_c : ℝ) : ℝ :=
  brayton_T1 T1_C + (brayton_T2s T1_C rp - brayton_T1 T1_C) / eta_c

def brayton_T4s (T3_C rp : ℝ) : ℝ :=
  brayton_T3 T3_C / rp ^ ((GAMMA_AIR - 1) / GAMMA_AIR)

def brayton_T4 (T3_C rp eta_t : ℝ) : ℝ :=
  brayton_T3 T3_C - (brayton_T3 T3_C - brayton_T4s T3_C rp) * eta_t

def brayton_w_comp (T1_C rp eta_c : ℝ) : ℝ :=
  CP_AIR * (brayton_T2 T1_C rp eta_c - brayton_T1 T1_C)

def brayton_w_turb (T3_C rp eta_t : ℝ) : ℝ :=
  CP_AIR * (brayton_T3 T3_C - brayton_T4 T3_C rp eta_t)

def brayton_w_net (T1_C rp T3_C eta_c eta_t : ℝ) : ℝ :=
  brayton_w_turb T3_C rp eta_t - brayton_w_comp T1_C rp eta_c

def brayton_q_in (T1_C rp T3_C eta_c : ℝ) : ℝ :=
  CP_AIR * (brayton_T3 T3_C - brayton_T2 T1_C rp eta_c)

def brayton_q_out (T1_C rp T3_C eta_t : ℝ) : ℝ :=
  CP_AIR * (brayton_T4 T3_C rp eta_t - brayton_T1 T1_C)

def brayton_eta_th (T1_C rp T3_C eta_c eta_t : ℝ) : ℝ :=
  if 0 < brayton_q_in T1_C rp T3_C eta_c then
    brayton_w_net T1_C rp T3_C eta_c eta_t / brayton_q_in T1_C rp T3_C eta_c * 100
  else 0

def brayton_bwr (T1_C rp T3_C eta_c eta_t : ℝ) : ℝ :=
  if 0 < brayton_w_turb T3_C rp eta_t then
    brayton_w_comp T1_C rp eta_c / brayton_w_turb T3_C rp eta_t * 100
  else 0

def brayton_s1 : ℝ := 0.0

def brayton_s2 (T1_C rp eta_c : ℝ) : ℝ :=
  CP_AIR * Real.log (brayton_T2 T1_C rp eta_c / brayton_T1 T1_C) - R_AIR * Real.log rp

def brayton_s3 (T1_C rp T3_C eta_c : ℝ) : ℝ :=
  brayton_s2 T1_C rp eta_c + CP_AIR * Real.log (brayton_T3 T3_C / brayton_T2 T1_C rp eta_c)

def brayton_s4 (T1_C rp T3_C eta_c eta_t : ℝ) : ℝ :=
  brayton_s3 T1_C rp T3_C eta_c +
    CP_AIR * Real.log (brayton_T4 T3_C rp eta_t / brayton_T3 T3_C) + R_AIR * Real.log rp

def brayton_h1 : ℝ := 0.0

def brayton_h2 (T1_C rp eta_c : ℝ) : ℝ :=
  CP_AIR * (brayton_T2 T1_C rp eta_c - brayton_T1 T1_C)

def brayton_h3 (T1_C T3_C : ℝ) : ℝ :=
  CP_AIR * (brayton_T3 T3_C - brayton_T1 T1_C)

def brayton_h4 (T1_C rp T3_C eta_t : ℝ) : ℝ :=
  CP_AIR * (brayton_T4 T3_C rp eta_t - brayton_T1 T1_C)

def brayton_states (T1_C rp T3_C eta_c eta_t : ℝ) : CycleStates where
  T := [brayton_T1 T1_C - 273.15, brayton_T2 T1_C rp eta_c - 273.15,
        brayton_T3 T3_C - 273.15, brayton_T4 T3_C rp eta_t - 273.15]
  h := [brayton_h1, brayton_h2 T1_C rp eta_c, brayton_h3 T1_C T3_C,
        brayton_h4 T1_C rp T3_C eta_t]
  s := [brayton_s1, brayton_s2 T1_C rp eta_c, brayton_s3 T1_C rp T3_C eta_c,
        brayton_s4 T1_C rp T3_C eta_c eta_t]
  labels := ["1 – Comp Inlet", "2 – Comp Outlet", "3 – Turb Inlet", "4 – Turb Outlet"]

def brayton_metrics (T1_C rp T3_C eta_c eta_t : ℝ) : BraytonMetrics where
  w_comp := rnd 2 (brayton_w_comp T1_C rp eta_c)
  w_turb := rnd 2 (brayton_w_turb T3_C rp eta_t)
  w_net := rnd 2 (brayton_w_net T1_C rp T3_C eta_c eta_t)
  q_in := rnd 2 (brayton_q_in T1_C rp T3_C eta_c)
  q_out := rnd 2 (brayton_q_out T1_C rp T3_C eta_t)
  eta_th := rnd 2 (brayton_eta_th T1_C rp T3_C eta_c eta_t)
  bwr := rnd 2 (brayton_bwr T1_C rp T3_C eta_c eta_t)

def brayton_cycle (T1_C rp T3_C eta_c eta_t : ℝ) : CycleStates × BraytonMetrics :=
  (brayton_states T1_C rp T3_C eta_c eta_t, brayton_metrics T1_C rp T3_C eta_c eta_t)

/-! ## HTC steam (Rankine-like) cycle — `htc_steam_cycle`, app.py lines 122-177. -/

def htc_T1 : ℝ := 45.0

def htc_T3 (T_reactor : ℝ) : ℝ := T_reactor + 50

def htc_P_low : ℝ := 0.1

def htc_h1 : ℝ := CP_WATER * htc_T1

def htc_h2 (P_reactor : ℝ) : ℝ := htc_h1 + 0.001 * (P_reactor - htc_P_low) * 100

def htc_h3 (T_reactor : ℝ) : ℝ :=
  CP_WATER * 100 + HFG_WATER + CP_STEAM * (htc_T3 T_reactor - 100)

def htc_eta_st : ℝ := 0.85

def htc_h4s : ℝ := htc_h1 + 0.88 * HFG_WATER

def htc_h4 (T_reactor : ℝ) : ℝ :=
  htc_h3 T_reactor - htc_eta_st * (htc_h3 T_reactor - htc_h4s)

def htc_s1 : ℝ := CP_WATER * Real.log ((htc_T1 + 273.15) / 273.15)

def htc_s2 : ℝ := htc_s1

def htc_s3 (T_reactor P_reactor : ℝ) : ℝ :=
  htc_s1 + (htc_h3 T_reactor - htc_h2 P_reactor) / (htc_T3 T_reactor + 273.15)

def htc_s4 (T_reactor P_reactor : ℝ) : ℝ := htc_s3 T_reactor P_reactor + 0.15

def htc_states (T_reactor P_reactor : ℝ) : CycleStates where
  T := [htc_T1, htc_T1 + 2, htc_T3 T_reactor, htc_T1 + 20]
  h := [rnd 1 htc_h1, rnd 1 (htc_h2 P_reactor), rnd 1 (htc_h3 T_reactor),
        rnd 1 (htc_h4 T_reactor)]
  s := [rnd 4 htc_s1, rnd 4 htc_s2, rnd 4 (htc_s3 T_reactor P_reactor),
        rnd 4 (htc_s4 T_reactor P_reactor)]
  labels := ["1 – Pump Inlet", "2 – Pump Outlet", "3 – Boiler Outlet", "4 – Turb Outlet"]

def htc_w_pump (P_reactor : ℝ) : ℝ := htc_h2 P_reactor - htc_h1

def htc_w_turb_st (T_reactor : ℝ) : ℝ := htc_h3 T_reactor - htc_h4 T_reactor

def htc_q_in_st (T_reactor P_reactor : ℝ) : ℝ := htc_h3 T_reactor - htc_h2 P_reactor

def htc_w_net_st (T_reactor P_reactor : ℝ) : ℝ :=
  htc_w_turb_st T_reactor - htc_w_pump P_reactor

def htc_eta (T_reactor P_reactor : ℝ) : ℝ :=
  if 0 < htc_q_in_st T_reactor P_reactor then
    htc_w_net_st T_reactor P_reactor / htc_q_in_st T_reactor P_reactor * 100
  else 0

def htc_metrics (T_reactor P_reactor : ℝ) : SteamMetrics where
  w_pump := rnd 2 (htc_w_pump P_reactor)
  w_turb := rnd 2 (htc_w_turb_st T_reactor)
  w_net := rnd 2 (htc_w_net_st T_reactor P_reactor)
  q_in := rnd 2 (htc_q_in_st T_reactor P_reactor)
  eta := rnd 2 (htc_eta T_reactor P_reactor)

def htc_steam_cycle (T_reactor P_reactor : ℝ) : CycleStates × SteamMetrics :=
  (htc_states T_reactor P_reactor, htc_metrics T_reactor P_reactor)

/-! ## AD biogas yield estimator — `ad_biogas_yield`, app.py lines 180-196. -/

def ad_dry_mass (feed_rate moisture_pct : ℝ) : ℝ :=
  feed_rate * (1 - moisture_pct / 100)

def ad_volatile_solids (feed_rate moisture_pct vs_fraction : ℝ) : ℝ :=
  ad_dry_mass feed_rate moisture_pct * vs_fraction

def ad_biogas_m3_h (feed_rate moisture_pct vs_fraction : ℝ) : ℝ :=
  ad_volatile_solids feed_rate moisture_pct vs_fraction * 0.40

def ad_methane_m3_h (feed_rate moisture_pct vs_fraction : ℝ) : ℝ :=
  ad_biogas_m3_h feed_rate moisture_pct vs_fraction * 0.60

def ad_biogas_energy (feed_rate moisture_pct vs_fraction : ℝ) : ℝ :=
  ad_biogas_m3_h feed_rate moisture_pct vs_fraction * BIOGAS_LHV

def ad_biogas_yield (feed_rate moisture_pct vs_fraction : ℝ) : ADYield where
  dry_mass := rnd 2 (ad_dry_mass feed_rate moisture_pct)
  volatile_solids := rnd 2 (ad_volatile_solids feed_rate moisture_pct vs_fraction)
  biogas_m3_h := rnd 2 (ad_biogas_m3_h feed_rate moisture_pct vs_fraction)
  methane_m3_h := rnd 2 (ad_methane_m3_h feed_rate moisture_pct vs_fraction)
  biogas_energy_MJ_h := rnd 2 (ad_biogas_energy feed_rate moisture_pct vs_fraction)

/-! ## HTC mass/energy balance estimator — `htc_process`, app.py lines 199-215. -/

def htc_dry_mass (feed_rate moisture_pct : ℝ) : ℝ :=
  feed_rate * (1 - moisture_pct / 100)

def htc_hydrochar_yield (feed_rate moisture_pct : ℝ) : ℝ :=
  htc_dry_mass feed_rate moisture_pct * 0.60

def htc_process_water (feed_rate moisture_pct : ℝ) : ℝ :=
  feed_rate - htc_hydrochar_yield feed_rate moisture_pct

def htc_hydrochar_energy (feed_rate moisture_pct : ℝ) : ℝ :=
  htc_hydrochar_yield feed_rate moisture_pct * HYDROCHAR_HHV

def htc_energy_required (feed_rate T_reactor : ℝ) : ℝ :=
  feed_rate * CP_WATER * (T_reactor - 25) / 1000

def htc_process (feed_rate moisture_pct T_reactor : ℝ) : HTCProcess where
  dry_mass := rnd 2 (htc_dry_mass feed_rate moisture_pct)
  hydrochar_kg_h := rnd 2 (htc_hydrochar_yield feed_rate moisture_pct)
  process_water_kg_h := rnd 2 (htc_process_water feed_rate moisture_pct)
  hydrochar_energy_MJ_h := rnd 2 (htc_hydrochar_energy feed_rate moisture_pct)
  energy_required_MJ_h := rnd 2 (htc_energy_required feed_rate T_reactor)

end

/-! ## Helper lemmas -/

/-- Evaluation rule for `round` at a value known to lie in a half-open unit interval. -/
lemma round_eval {x : ℝ} {z : ℤ} (h1 : (z : ℝ) ≤ x + 1 / 2) (h2 : x + 1 / 2 < z + 1) :
    round x = z := by
  rw [round_eq]
  exact Int.floor_eq_iff.mpr ⟨h1, h2⟩

/-- Rounding a non-negative real to `d` decimal places stays non-negative. -/
lemma rnd_nonneg {x : ℝ} (d : ℕ) (hx : 0 ≤ x) : 0 ≤ rnd d x := by
  rw [rnd]
  refine div_nonneg ?_ (by positivity)
  have h : (0:ℤ) ≤ round (x * 10 ^ d) := by
    rw [round_eq]
    exact Int.floor_nonneg.mpr (by positivity)
  exact_mod_cast h

/-- Seventh power of the Brayton temperature-ratio factor `10^((γ-1)/γ) = 10^(2/7)`. -/
lemma rho_pow7 : ((10:ℝ) ^ ((2:ℝ)/7)) ^ (7:ℕ) = 100 := by
  rw [← Real.rpow_natCast ((10:ℝ) ^ ((2:ℝ)/7)) 7, ← Real.rpow_mul (by norm_num : (0:ℝ) ≤ 10)]
  norm_num

lemma rho_pos : 0 < (10:ℝ) ^ ((2:ℝ)/7) := Real.rpow_pos_of_pos (by norm_num) _

lemma rho_lb : (1.930697 : ℝ) < (10:ℝ) ^ ((2:ℝ)/7) := by
  by_contra h
  push_neg at h
  have h7 : ((10:ℝ) ^ ((2:ℝ)/7)) ^ (7:ℕ) ≤ (1.930697:ℝ) ^ (7:ℕ) :=
    pow_le_pow_left₀ (le_of_lt rho_pos) h 7
  rw [rho_pow7] at h7
  norm_num at h7

lemma rho_ub : (10:ℝ) ^ ((2:ℝ)/7) < 1.930698 := by
  by_contra h
  push_neg at h
  have h7 : (1.930698:ℝ) ^ (7:ℕ) ≤ ((10:ℝ) ^ ((2:ℝ)/7)) ^ (7:ℕ) :=
    pow_le_pow_left₀ (by norm_num) h 7
  rw [rho_pow7] at h7
  norm_num at h7

/-- The Brayton exponent `(γ-1)/γ` evaluates to `2/7` for air. -/
lemma gamma_exp : (GAMMA_AIR - 1) / GAMMA_AIR = (2:ℝ)/7 := by
  rw [GAMMA_AIR]; norm_num

/-- Lower bound on the steam-cycle state-1 entropy `s1 = cp_w · ln(318.15/273.15)`. -/
lemma htc_s1_lb : (0.59:ℝ) < htc_s1 := by
  rw [htc_s1, CP_WATER, htc_T1]
  have hx : (0:ℝ) < (45.0 + 273.15) / 273.15 := by norm_num
  have h := Real.one_sub_inv_le_log_of_pos hx
  have hi : (((45.0:ℝ) + 273.15) / 273.15)⁻¹ = 273.15 / 318.15 := by norm_num
  rw [hi] at h
  nlinarith [h]

/-- Upper bound on the steam-cycle state-1 entropy. -/
lemma htc_s1_ub : htc_s1 < 0.69 := by
  rw [htc_s1, CP_WATER, htc_T1]
  have hx : (0:ℝ) < (45.0 + 273.15) / 273.15 := by norm_num
  have h := Real.log_le_sub_one_of_pos hx
  nlinarith [h]

/-- The steam-cycle state-1 enthalpy evaluates to `4.186 · 45 = 188.37` before rounding. -/
lemma htc_h1_eval : htc_h1 = 188.37 := by
  rw [htc_h1, CP_WATER, htc_T1]; norm_num

/-! ## Claims -/

/-- Claim C4: for every input, `brayton_cycle` reports thermal efficiency exactly 0
when the computed heat input is non-positive, back-work ratio exactly 0 when the
computed turbine work is non-positive, and `htc_steam_cycle` reports efficiency
exactly 0 when its computed heat input is non-positive. -/
theorem claim_C4 (T1_C rp T3_C eta_c eta_t T_reactor P_reactor : ℝ) :
    (brayton_q_in T1_C rp T3_C eta_c ≤ 0 → brayton_eta_th T1_C rp T3_C eta_c eta_t = 0) ∧
    (brayton_w_turb T3_C rp eta_t ≤ 0 → brayton_bwr T1_C rp T3_C eta_c eta_t = 0) ∧
    (htc_q_in_st T_reactor P_reactor ≤ 0 → htc_eta T_reactor P_reactor = 0) := by
  refine ⟨fun h => ?_, fun h => ?_, fun h => ?_⟩
  · rw [brayton_eta_th, if_neg (not_lt.mpr h)]
  · rw [brayton_bwr, if_neg (not_lt.mpr h)]
  · rw [htc_eta, if_neg (not_lt.mpr h)]

/-- Witness for C4: at `brayton_cycle(1000, 1, 0, 1, 1)` the heat input and turbine
work are non-positive and both guarded ratios are 0; at `htc_steam_cycle(-2000, 20)`
the heat input is negative and the efficiency is 0. -/
theorem claim_C4_witness :
    (brayton_q_in 1000 1 0 1 ≤ 0 ∧ brayton_eta_th 1000 1 0 1 1 = 0) ∧
    (brayton_w_turb 0 1 1 ≤ 0 ∧ brayton_bwr 1000 1 0 1 1 = 0) ∧
    (htc_q_in_st (-2000) 20 ≤ 0 ∧ htc_eta (-2000) 20 = 0) := by
  have h1 : brayton_q_in 1000 1 0 1 ≤ 0 := by
    rw [brayton_q_in, brayton_T2, brayton_T2s, brayton_T1, brayton_T3, CP_AIR,
      Real.one_rpow]
    norm_num
  have h2 : brayton_w_turb 0 1 1 ≤ 0 := by
    rw [brayton_w_turb, brayton_T4, brayton_T4s, brayton_T3, CP_AIR, Real.one_rpow]
    norm_num
  have h3 : htc_q_in_st (-2000) 20 ≤ 0 := by
    rw [htc_q_in_st, htc_h3, htc_h2, htc_h1, htc_T3, htc_T1, htc_P_low, CP_WATER,
      CP_STEAM, HFG_WATER]
    norm_num
  exact ⟨⟨h1, (claim_C4 1000 1 0 1 1 (-2000) 20).1 h1⟩,
         ⟨h2, (claim_C4 1000 1 0 1 1 (-2000) 20).2.1 h2⟩,
         ⟨h3, (claim_C4 1000 1 0 1 1 (-2000) 20).2.2 h3⟩⟩

/-- Claim C5: for every input to `brayton_cycle`, the pre-rounding quantities satisfy
`w_net = w_turb - w_comp`, and whenever `q_in > 0` also `q_in - q_out = w_net`
(first-law cycle closure), exactly as equations over the underlying arithmetic. -/
theorem claim_C5 (T1_C rp T3_C eta_c eta_t : ℝ) :
    brayton_w_net T1_C rp T3_C eta_c eta_t =
      brayton_w_turb T3_C rp eta_t - brayton_w_comp T1_C rp eta_c ∧
    (0 < brayton_q_in T1_C rp T3_C eta_c →
      brayton_q_in T1_C rp T3_C eta_c - brayton_q_out T1_C rp T3_C eta_t =
        brayton_w_net T1_C rp T3_C eta_c eta_t) := by
  refine ⟨rfl, fun _ => ?_⟩
  rw [brayton_q_in, brayton_q_out, brayton_w_net, brayton_w_turb, brayton_w_comp]
  ring

/-- Witness for C5: at `brayton_cycle(0, 1, 100, 1, 1)` the heat input is positive
and both first-law identities hold. -/
theorem claim_C5_witness :
    0 < brayton_q_in 0 1 100 1 ∧
    brayton_w_net 0 1 100 1 1 = brayton_w_turb 100 1 1 - brayton_w_comp 0 1 1 ∧
    brayton_q_in 0 1 100 1 - brayton_q_out 0 1 100 1 = brayton_w_net 0 1 100 1 1 := by
  have hq : 0 < brayton_q_in 0 1 100 1 := by
    rw [brayton_q_in, brayton_T2, brayton_T2s, brayton_T1, brayton_T3, CP_AIR,
      Real.one_rpow]
    norm_num
  exact ⟨hq, (claim_C5 0 1 100 1 1).1, (claim_C5 0 1 100 1 1).2 hq⟩

/-- Claim C6: for every input to `brayton_cycle` with unit compressor and turbine
efficiencies and `rp > 1`, the actual outlet temperatures coincide with the
isentropic ones: `T2 = T2s` and `T4 = T4s`. -/
theorem claim_C6 (T1_C rp T3_C : ℝ) (hrp : 1 < rp) :
    brayton_T2 T1_C rp 1 = brayton_T2s T1_C rp ∧
    brayton_T4 T3_C rp 1 = brayton_T4s T3_C rp := by
  constructor
  · rw [brayton_T2, div_one]; ring
  · rw [brayton_T4]; ring

/-- Witness for C6: at `T1_C = 25`, `rp = 2`, `T3_C = 1200` the ideal cycle is
exactly isentropic. -/
theorem claim_C6_witness :
    (1:ℝ) < 2 ∧
    brayton_T2 25 2 1 = brayton_T2s 25 2 ∧
    brayton_T4 1200 2 1 = brayton_T4s 1200 2 :=
  ⟨by norm_num, claim_C6 25 2 1200 (by norm_num)⟩

/-- Claim C7: for both `ad_biogas_yield` and `htc_process`, for every feed rate
at least 0 and moisture percentage in [0,100], the computed dry mass satisfies
`dry_mass + feed_rate * moisture_pct / 100 = feed_rate`. -/
theorem claim_C7 (feed_rate moisture_pct : ℝ) (hf : 0 ≤ feed_rate)
    (hm0 : 0 ≤ moisture_pct) (hm1 : moisture_pct ≤ 100) :
    ad_dry_mass feed_rate moisture_pct + feed_rate * moisture_pct / 100 = feed_rate ∧
    htc_dry_mass feed_rate moisture_pct + feed_rate * moisture_pct / 100 = feed_rate := by
  constructor
  · rw [ad_dry_mass]; ring
  · rw [htc_dry_mass]; ring

/-- Witness for C7: at feed rate 10 kg/h and 30 % moisture the dry-mass balance
closes for both estimators. -/
theorem claim_C7_witness :
    (0 ≤ (10:ℝ) ∧ (0:ℝ) ≤ 30 ∧ (30:ℝ) ≤ 100) ∧
    ad_dry_mass 10 30 + 10 * 30 / 100 = 10 ∧
    htc_dry_mass 10 30 + 10 * 30 / 100 = 10 :=
  ⟨⟨by norm_num, by norm_num, by norm_num⟩,
   claim_C7 10 30 (by norm_num) (by norm_num) (by norm_num)⟩

/-- Claim C9: for every input to `brayton_cycle`, the unrounded state enthalpies and
metrics are coupled exactly: `h2 = w_comp`, `q_in = h3 - h2` and `q_out = h4 - h1`. -/
theorem claim_C9 (T1_C rp T3_C eta_c eta_t : ℝ) :
    brayton_h2 T1_C rp eta_c = brayton_w_comp T1_C rp eta_c ∧
    brayton_q_in T1_C rp T3_C eta_c = brayton_h3 T1_C T3_C - brayton_h2 T1_C rp eta_c ∧
    brayton_q_out T1_C rp T3_C eta_t = brayton_h4 T1_C rp T3_C eta_t - brayton_h1 := by
  refine ⟨rfl, ?_, ?_⟩
  · rw [brayton_q_in, brayton_h3, brayton_h2]; ring
  · rw [brayton_q_out, brayton_h4, brayton_h1]; norm_num

/-- Claim C10: for every feed rate at least 0 and moisture percentage in [0,100],
the unrounded HTC process water is at least `0.4 * feed_rate` and the reported
`process_water_kg_h` field is non-negative. -/
theorem claim_C10 (feed_rate moisture_pct T_reactor : ℝ) (hf : 0 ≤ feed_rate)
    (hm0 : 0 ≤ moisture_pct) (hm1 : moisture_pct ≤ 100) :
    0.4 * feed_rate ≤ htc_process_water feed_rate moisture_pct ∧
    0 ≤ (htc_process feed_rate moisture_pct T_reactor).process_water_kg_h := by
  have hraw : 0.4 * feed_rate ≤ htc_process_water feed_rate moisture_pct := by
    rw [htc_process_water, htc_hydrochar_yield, htc_dry_mass]
    nlinarith [mul_nonneg hf hm0]
  refine ⟨hraw, ?_⟩
  have h0 : 0 ≤ htc_process_water feed_rate moisture_pct := by nlinarith
  simpa [htc_process] using rnd_nonneg 2 h0

/-- Witness for C10: at feed rate 10 kg/h, 20 % moisture and reactor temperature
200 °C the process-water guarantees hold. -/
theorem claim_C10_witness :
    (0 ≤ (10:ℝ) ∧ (0:ℝ) ≤ 20 ∧ (20:ℝ) ≤ 100) ∧
    0.4 * 10 ≤ htc_process_water 10 20 ∧
    0 ≤ (htc_process 10 20 200).process_water_kg_h :=
  ⟨⟨by norm_num, by norm_num, by norm_num⟩,
   claim_C10 10 20 200 (by norm_num) (by norm_num) (by norm_num)⟩

/-- Counterexample for C1: at `htc_steam_cycle(200, 20)` the enthalpy reported at
state point 1 of the returned state set is not 0 (it is 188.4). -/
theorem claim_C1_counterexample : (htc_states 200 20).h.head? ≠ some 0 := by
  have hr : rnd 1 htc_h1 = 188.4 := by
    rw [rnd, htc_h1_eval]
    have h : round ((188.37:ℝ) * 10 ^ (1:ℕ)) = 1884 :=
      round_eval (by norm_num) (by norm_num)
    rw [h]
    norm_num
  simp only [htc_states, List.head?_cons, hr]
  intro h
  have := Option.some_injective ℝ h
  norm_num at this

/-- Claim C1 (amended): for every admissible input, `brayton_cycle` reports enthalpy
and entropy exactly 0 at state point 1; `htc_steam_cycle` instead reports state-1
enthalpy 188.4 (rounded from `CP_WATER * 45 = 188.37`) and a strictly positive
state-1 entropy. -/
theorem claim_C1 (T1_C rp T3_C eta_c eta_t T_reactor P_reactor : ℝ)
    (hrp : 1 < rp) (hc0 : 0 < eta_c) (hc1 : eta_c ≤ 1) (ht0 : 0 < eta_t) (ht1 : eta_t ≤ 1) :
    ((brayton_states T1_C rp T3_C eta_c eta_t).h.head? = some 0 ∧
     (brayton_states T1_C rp T3_C eta_c eta_t).s.head? = some 0) ∧
    ((htc_states T_reactor P_reactor).h.head? = some 188.4 ∧
     (htc_states T_reactor P_reactor).s.head? = some (rnd 4 htc_s1) ∧
     0 < rnd 4 htc_s1) := by
  have hr : rnd 1 htc_h1 = 188.4 := by
    rw [rnd, htc_h1_eval]
    have h : round ((188.37:ℝ) * 10 ^ (1:ℕ)) = 1884 :=
      round_eval (by norm_num) (by norm_num)
    rw [h]
    norm_num
  have hspos : 0 < rnd 4 htc_s1 := by
    rw [rnd]
    have h1 : (1:ℤ) ≤ round (htc_s1 * 10 ^ (4:ℕ)) := by
      rw [round_eq]
      refine Int.le_floor.mpr ?_
      push_cast
      nlinarith [htc_s1_lb]
    have h2 : (0:ℝ) < (round (htc_s1 * 10 ^ (4:ℕ)) : ℝ) := by
      exact_mod_cast lt_of_lt_of_le Int.zero_lt_one h1
    positivity
  refine ⟨⟨?_, ?_⟩, ⟨?_, ?_, hspos⟩⟩
  · simp only [brayton_states, List.head?_cons, brayton_h1]
    norm_num
  · simp only [brayton_states, List.head?_cons, brayton_s1]
    norm_num
  · simp only [htc_states, List.head?_cons, hr]
  · simp only [htc_states, List.head?_cons]

/-- Witness for C1 (amended): at `brayton_cycle(25, 2, 1200, 0.85, 0.9)` and
`htc_steam_cycle(200, 20)` all five reference-point facts hold. -/
theorem claim_C1_witness :
    ((1:ℝ) < 2 ∧ (0:ℝ) < 0.85 ∧ (0.85:ℝ) ≤ 1 ∧ (0:ℝ) < 0.9 ∧ (0.9:ℝ) ≤ 1) ∧
    (((brayton_states 25 2 1200 0.85 0.9).h.head? = some 0 ∧
      (brayton_states 25 2 1200 0.85 0.9).s.head? = some 0) ∧
     ((htc_states 200 20).h.head? = some 188.4 ∧
      (htc_states 200 20).s.head? = some (rnd 4 htc_s1) ∧
      0 < rnd 4 htc_s1)) :=
  ⟨⟨by norm_num, by norm_num, by norm_num, by norm_num, by norm_num⟩,
   claim_C1 25 2 1200 0.85 0.9 200 20 (by norm_num) (by norm_num) (by norm_num)
     (by norm_num) (by norm_num)⟩

/-- Counterexample for C2: the computed state-1 entropy of `htc_steam_cycle` is not
0.2975 (it exceeds 0.59). -/
theorem claim_C2_counterexample : htc_s1 ≠ 0.2975 := by
  intro h
  have hlb := htc_s1_lb
  rw [h] at hlb
  norm_num at hlb

/-- Claim C2 (amended): `htc_steam_cycle(200, 20)` yields computed state-1 enthalpy
exactly 188.37 kJ/kg, computed state-1 entropy `CP_WATER * ln(318.15/273.15)`
strictly between 0.59 and 0.69 (approximately 0.638, not 0.2975), and a thermal
efficiency strictly between 0 and 100. -/
theorem claim_C2 :
    htc_h1 = 188.37 ∧ (0.59 < htc_s1 ∧ htc_s1 < 0.69) ∧
    (0 < htc_eta 200 20 ∧ htc_eta 200 20 < 100) := by
  have hq : (0:ℝ) < htc_q_in_st 200 20 := by
    rw [htc_q_in_st, htc_h3, htc_h2, htc_h1, htc_T3, htc_T1, htc_P_low, CP_WATER,
      CP_STEAM, HFG_WATER]
    norm_num
  have hqe : htc_q_in_st 200 20 = 2786.74 := by
    rw [htc_q_in_st, htc_h3, htc_h2, htc_h1, htc_T3, htc_T1, htc_P_low, CP_WATER,
      CP_STEAM, HFG_WATER]
    norm_num
  have hwe : htc_w_net_st 200 20 = 680.1945 := by
    rw [htc_w_net_st, htc_w_turb_st, htc_w_pump, htc_h4, htc_h4s, htc_h3, htc_h2,
      htc_h1, htc_eta_st, htc_T3, htc_T1, htc_P_low, CP_WATER, CP_STEAM, HFG_WATER]
    norm_num
  refine ⟨htc_h1_eval, ⟨htc_s1_lb, htc_s1_ub⟩, ?_, ?_⟩
  · rw [htc_eta, if_pos hq, hqe, hwe]
    norm_num
  · rw [htc_eta, if_pos hq, hqe, hwe]
    norm_num

/-- Counterexample for C3: at `brayton_cycle(25, 10, 1200, 0.85, 0.90)` the computed
compressor work exceeds 328 kJ/kg, so it is not approximately 307.83 kJ/kg. -/
theorem claim_C3_counterexample :
    (307.83:ℝ) + 20 < brayton_w_comp 25 10 0.85 ∧
    brayton_w_comp 25 10 0.85 ≠ 307.83 := by
  have hlb : (327.83:ℝ) < brayton_w_comp 25 10 0.85 := by
    rw [brayton_w_comp, brayton_T2, brayton_T2s, brayton_T1, CP_AIR, gamma_exp]
    rw [show (0.85 : ℝ) = 17/20 by norm_num, div_div_eq_mul_div, div_eq_mul_inv]
    nlinarith [rho_lb, rho_ub]
  constructor
  · calc (307.83:ℝ) + 20 = 327.83 := by norm_num
    _ < brayton_w_comp 25 10 0.85 := hlb
  · intro h
    rw [h] at hlb
    norm_num at hlb

/-- Claim C3 (amended): `brayton_cycle(25, 10, 1200, 0.85, 0.90)` yields compressor
work strictly between 328.08 and 328.09 kJ/kg (approximately 328.09, not 307.83),
a strictly positive net work, and a thermal efficiency strictly between 0 and 60. -/
theorem claim_C3 :
    (328.08 < brayton_w_comp 25 10 0.85 ∧ brayton_w_comp 25 10 0.85 < 328.09) ∧
    0 < brayton_w_net 25 10 1200 0.85 0.9 ∧
    (0 < brayton_eta_th 25 10 1200 0.85 0.9 ∧ brayton_eta_th 25 10 1200 0.85 0.9 < 60) := by
  have hwc_l : (328.08:ℝ) < brayton_w_comp 25 10 0.85 := by
    rw [brayton_w_comp, brayton_T2, brayton_T2s, brayton_T1, CP_AIR, gamma_exp]
    rw [show (0.85 : ℝ) = 17/20 by norm_num, div_div_eq_mul_div, div_eq_mul_inv]
    nlinarith [rho_lb, rho_ub]
  have hwc_u : brayton_w_comp 25 10 0.85 < 328.09 := by
    rw [brayton_w_comp, brayton_T2, brayton_T2s, brayton_T1, CP_AIR, gamma_exp]
    rw [show (0.85 : ℝ) = 17/20 by norm_num, div_div_eq_mul_div, div_eq_mul_inv]
    nlinarith [rho_lb, rho_ub]
  have hT4s_l : (763.013:ℝ) < brayton_T4s 1200 10 := by
    rw [brayton_T4s, brayton_T3, gamma_exp, lt_div_iff₀ rho_pos]
    nlinarith [rho_ub]
  have hT4s_u : brayton_T4s 1200 10 < 763.015 := by
    rw [brayton_T4s, brayton_T3, gamma_exp, div_lt_iff₀ rho_pos]
    nlinarith [rho_lb]
  have hwt_l : (642.31:ℝ) < brayton_w_turb 1200 10 0.9 := by
    rw [brayton_w_turb, brayton_T4, brayton_T3, CP_AIR]
    nlinarith [hT4s_u]
  have hwt_u : brayton_w_turb 1200 10 0.9 < 642.32 := by
    rw [brayton_w_turb, brayton_T4, brayton_T3, CP_AIR]
    nlinarith [hT4s_l]
  have hwn_l : (0:ℝ) < brayton_w_net 25 10 1200 0.85 0.9 := by
    rw [brayton_w_net]; linarith
  have hwn_u : brayton_w_net 25 10 1200 0.85 0.9 < 314.24 := by
    rw [brayton_w_net]; linarith
  have hqe : brayton_q_in 25 10 1200 0.85 =
      1.005 * (1473.15 - 298.15) - brayton_w_comp 25 10 0.85 := by
    rw [brayton_q_in, brayton_w_comp, brayton_T3, brayton_T2, brayton_T1, CP_AIR]
    ring
  have hq_l : (852.78:ℝ) < brayton_q_in 25 10 1200 0.85 := by
    rw [hqe]; linarith
  have hq0 : (0:ℝ) < brayton_q_in 25 10 1200 0.85 := by linarith
  refine ⟨⟨hwc_l, hwc_u⟩, hwn_l, ?_, ?_⟩
  · rw [brayton_eta_th, if_pos hq0]
    have := div_pos hwn_l hq0
    positivity
  · rw [brayton_eta_th, if_pos hq0, div_mul_eq_mul_div, div_lt_iff₀ hq0]
    linarith

/-- Counterexample for C8: the `ad_biogas_yield` output is not homogeneous in the
feed rate: tripling the feed rate from 1 to 3 kg/h (at 0 % moisture, volatile-solids
fraction 0.8) does not triple the reported methane rate, because rounding is applied
before the record is returned (0.58 versus 3 times 0.19). -/
theorem claim_C8_counterexample :
    (ad_biogas_yield 3 0 0.8).methane_m3_h ≠ 3 * (ad_biogas_yield 1 0 0.8).methane_m3_h := by
  have e3 : ad_methane_m3_h 3 0 0.8 = 0.576 := by
    rw [ad_methane_m3_h, ad_biogas_m3_h, ad_volatile_solids, ad_dry_mass]
    norm_num
  have e1 : ad_methane_m3_h 1 0 0.8 = 0.192 := by
    rw [ad_methane_m3_h, ad_biogas_m3_h, ad_volatile_solids, ad_dry_mass]
    norm_num
  have r3 : rnd 2 (ad_methane_m3_h 3 0 0.8) = 0.58 := by
    rw [e3, rnd]
    have h : round ((0.576:ℝ) * 10 ^ (2:ℕ)) = 58 := round_eval (by norm_num) (by norm_num)
    rw [h]
    norm_num
  have r1 : rnd 2 (ad_methane_m3_h 1 0 0.8) = 0.19 := by
    rw [e1, rnd]
    have h : round ((0.192:ℝ) * 10 ^ (2:ℕ)) = 19 := round_eval (by norm_num) (by norm_num)
    rw [h]
    norm_num
  simp only [ad_biogas_yield, r3, r1]
  norm_num

/-- Claim C8 (amended): the pre-rounding quantities of `ad_biogas_yield` and
`htc_process` are linear and homogeneous of degree 1 in the feed rate: scaling the
feed rate by any k scales every computed quantity by k (the reported record fields
are these quantities rounded to 2 decimals, and rounding can break exact
homogeneity). -/
theorem claim_C8 (k feed_rate moisture_pct vs_fraction T_reactor : ℝ) :
    ad_dry_mass (k * feed_rate) moisture_pct = k * ad_dry_mass feed_rate moisture_pct ∧
    ad_volatile_solids (k * feed_rate) moisture_pct vs_fraction =
      k * ad_volatile_solids feed_rate moisture_pct vs_fraction ∧
    ad_biogas_m3_h (k * feed_rate) moisture_pct vs_fraction =
      k * ad_biogas_m3_h feed_rate moisture_pct vs_fraction ∧
    ad_methane_m3_h (k * feed_rate) moisture_pct vs_fraction =
      k * ad_methane_m3_h feed_rate moisture_pct vs_fraction ∧
    ad_biogas_energy (k * feed_rate) moisture_pct vs_fraction =
      k * ad_biogas_energy feed_rate moisture_pct vs_fraction ∧
    htc_dry_mass (k * feed_rate) moisture_pct = k * htc_dry_mass feed_rate moisture_pct ∧
    htc_hydrochar_yield (k * feed_rate) moisture_pct =
      k * htc_hydrochar_yield feed_rate moisture_pct ∧
    htc_process_water (k * feed_rate) moisture_pct =
      k * htc_process_water feed_rate moisture_pct ∧
    htc_hydrochar_energy (k * feed_rate) moisture_pct =
      k * htc_hydrochar_energy feed_rate moisture_pct ∧
    htc_energy_required (k * feed_rate) T_reactor =
      k * htc_energy_required feed_rate T_reactor := by
  simp only [ad_dry_mass, ad_volatile_solids, ad_biogas_m3_h, ad_methane_m3_h,
    ad_biogas_energy, htc_dry_mass, htc_hydrochar_yield, htc_process_water,
    htc_hydrochar_energy, htc_energy_required]
  refine ⟨by ring, by ring, by ring, by ring, by ring, by ring, by ring, by ring,
    by ring, by ring⟩
